import Mathlib

/-!
Verification of the branch-declaration machinery of sapio
(`src/sapio/src/contract/actions.rs`): the `ConditionalCompileType` merge
algebra, guard caching, and the `FinishOrFunc` / `CallableAsFoF` dispatch.
-/

namespace Sapio

/-- The `ConditionalCompileType` enum from `actions.rs`: the closed algebra of
inclusion decisions for a branch. `Fail` carries an ordered list of
human-readable reasons (a `LinkedList<String>` in the source, embedded as a
`List String`). Constructors are in source order. -/
inductive ConditionalCompileType : Type where
  | Skippable : ConditionalCompileType
  | Nullable : ConditionalCompileType
  | Required : ConditionalCompileType
  | Never : ConditionalCompileType
  | NoConstraint : ConditionalCompileType
  | Fail : List String → ConditionalCompileType
  deriving DecidableEq

/-- The `ConditionalCompileType::merge` function from `actions.rs`, arm for
arm in the source order (both Rust and Lean try match arms top-down); Rust
or-patterns are split into one Lean arm per alternative. The synthesized
conflict list is `LinkedList::new()` followed by one `push_front`, i.e. a
singleton list. -/
def ConditionalCompileType.merge :
    ConditionalCompileType → ConditionalCompileType → ConditionalCompileType
  | .NoConstraint, x => x
  | x, .NoConstraint => x
  | .Fail v, .Fail v2 => .Fail (v ++ v2)
  | .Fail v, _ => .Fail v
  | _, .Fail v => .Fail v
  | .Required, .Never => .Fail ["Never and Required incompatible"]
  | .Never, .Required => .Fail ["Never and Required incompatible"]
  | .Never, .Skippable => .Never
  | .Skippable, .Never => .Never
  | .Never, .Nullable => .Never
  | .Nullable, .Never => .Never
  | .Never, .Never => .Never
  | .Required, .Skippable => .Required
  | .Skippable, .Required => .Required
  | .Required, .Nullable => .Required
  | .Nullable, .Required => .Required
  | .Required, .Required => .Required
  | .Skippable, .Skippable => .Skippable
  | .Skippable, .Nullable => .Skippable
  | .Nullable, .Skippable => .Skippable
  | .Nullable, .Nullable => .Nullable

/-- Whether a `ConditionalCompileType` is the `Fail` variant. -/
def ConditionalCompileType.isFail : ConditionalCompileType → Bool
  | .Fail _ => true
  | _ => false

/-- The `Guard` enum from `actions.rs`: a condition-producing function tagged
`Cache` (result should be computed once per contract instance) or `Fresh`
(may be recomputed on every call). -/
inductive Guard (ContractSelf Ctx Clause : Type) : Type where
  | Cache : (ContractSelf → Ctx → Clause) → Guard ContractSelf Ctx Clause
  | Fresh : (ContractSelf → Ctx → Clause) → Guard ContractSelf Ctx Clause

/-- The `ConditionallyCompileIf` enum from `actions.rs`: a wrapper around a
function producing a `ConditionalCompileType` for an instance and context. -/
inductive ConditionallyCompileIf (ContractSelf Ctx : Type) : Type where
  | Fresh : (ContractSelf → Ctx → ConditionalCompileType) →
      ConditionallyCompileIf ContractSelf Ctx

/-- Apply a `ConditionallyCompileIf` wrapper to an instance and context. -/
def ConditionallyCompileIf.eval :
    ConditionallyCompileIf C Ctx → C → Ctx → ConditionalCompileType
  | .Fresh f, s, c => f s c

/-- The `ThenFunc` record from `actions.rs`: a guard list, a
conditional-compile-if list (both lists of nullary producers returning an
optional entry, as in the source slices of `fn() -> Option<...>`), and a
production function. `TxTmplIt` is embedded as `Except Err Iter` with the
template iterator type `Iter` left opaque. -/
structure ThenFunc (ContractSelf Ctx Clause Err Iter : Type) : Type where
  guard : List (Unit → Option (Guard ContractSelf Ctx Clause))
  conditional_compile_if : List (Unit → Option (ConditionallyCompileIf ContractSelf Ctx))
  func : ContractSelf → Ctx → Except Err Iter

/-- The `FinishOrFunc` record from `actions.rs`: an argument-coercion
function from the common `StatefulArguments` shape to `SpecificArgs`, a guard
list, a conditional-compile-if list, a production function, an optional
schema, and a name. Field order follows the source. -/
structure FinishOrFunc
    (ContractSelf Ctx Clause Err Iter Schema StatefulArguments SpecificArgs : Type) :
    Type where
  coerce_args : StatefulArguments → Except Err SpecificArgs
  guard : List (Unit → Option (Guard ContractSelf Ctx Clause))
  conditional_compile_if : List (Unit → Option (ConditionallyCompileIf ContractSelf Ctx))
  func : ContractSelf → Ctx → SpecificArgs → Except Err Iter
  schema : Option Schema
  name : String

/-- The `CallableAsFoF::call` implementation for `FinishOrFunc` from
`actions.rs`: `let args = (self.coerce_args)(o)?; (self.func)(cself, ctx, args)`.
The `?` operator returns the coercion error unchanged; otherwise the
production function is applied to the coerced arguments. -/
def FinishOrFunc.call
    (fof : FinishOrFunc C Ctx Cl Err It Sch SA SpA) (cself : C) (ctx : Ctx)
    (o : SA) : Except Err It :=
  match fof.coerce_args o with
  | .error e => .error e
  | .ok args => fof.func cself ctx args

/-- Modelled from the spec: the per-(contract-instance, guard-identity) memo
store of one compilation session (spec section 4.2), whose implementation is
not under `src/`. `stored` is the memoized clause, if any, and `invocations`
counts the calls made to the underlying guard function. -/
structure GuardMemo (Clause : Type) : Type where
  stored : Option Clause
  invocations : Nat

/-- Modelled from the spec: evaluating a guard against the session memo store
(spec section 4.2), whose implementation is not under `src/`. A `Cache` guard
consults the memo before invoking its function and stores the result; a
`Fresh` guard invokes its function every time and never touches the memo. -/
def evalGuard (g : Guard C Ctx Clause) (self : C) (ctx : Ctx)
    (m : GuardMemo Clause) : Clause × GuardMemo Clause :=
  match g with
  | .Fresh f => (f self ctx, ⟨m.stored, m.invocations + 1⟩)
  | .Cache f =>
    match m.stored with
    | some c => (c, m)
    | none => (f self ctx, ⟨some (f self ctx), m.invocations + 1⟩)

/-- Modelled from the spec: the verdict of a branch (spec sections 4.1 and
4.3, whose driver is not under `src/`) — fold the evaluated
conditional-compile-if list left-to-right via `merge`, starting from
`NoConstraint`; producers yielding no rule contribute nothing. -/
def ThenFunc.verdict (b : ThenFunc C Ctx Cl Err It) (self : C) (ctx : Ctx) :
    ConditionalCompileType :=
  (b.conditional_compile_if.filterMap (fun f => f ())).foldl
    (fun acc r => acc.merge (r.eval self ctx)) .NoConstraint

/-- Modelled from the spec: the outcome of resolving one branch (spec
section 4.3): aborted with failure reasons, excluded without running the
production function, or produced from the production function. -/
inductive BranchOutcome (Err Iter : Type) : Type where
  | failed : List String → BranchOutcome Err Iter
  | excluded : BranchOutcome Err Iter
  | produced : Except Err Iter → BranchOutcome Err Iter

/-- Modelled from the spec: branch resolution for a `ThenFunc` (spec section
4.3, whose driver is not under `src/`). A `Fail` verdict aborts with its
reasons; a `Never` verdict excludes the branch without invoking the
production function; any other verdict invokes the production function. -/
def ThenFunc.resolve (b : ThenFunc C Ctx Cl Err It) (self : C) (ctx : Ctx) :
    BranchOutcome Err It :=
  match b.verdict self ctx with
  | .Fail rs => .failed rs
  | .Never => .excluded
  | _ => .produced (b.func self ctx)

/-- Claim C1: merging `Never` with `Skippable`, `Nullable` or `Never` (either
argument order) yields `Never`; merging `Required` with `Skippable`,
`Nullable` or `Required` (either order) yields `Required`; merging
`Skippable` with `Skippable` or `Nullable` (either order) yields `Skippable`;
merging `Nullable` with `Nullable` yields `Nullable`. -/
theorem merge_tier_table :
    ConditionalCompileType.Never.merge .Skippable = .Never ∧
    ConditionalCompileType.Skippable.merge .Never = .Never ∧
    ConditionalCompileType.Never.merge .Nullable = .Never ∧
    ConditionalCompileType.Nullable.merge .Never = .Never ∧
    ConditionalCompileType.Never.merge .Never = .Never ∧
    ConditionalCompileType.Required.merge .Skippable = .Required ∧
    ConditionalCompileType.Skippable.merge .Required = .Required ∧
    ConditionalCompileType.Required.merge .Nullable = .Required ∧
    ConditionalCompileType.Nullable.merge .Required = .Required ∧
    ConditionalCompileType.Required.merge .Required = .Required ∧
    ConditionalCompileType.Skippable.merge .Skippable = .Skippable ∧
    ConditionalCompileType.Skippable.merge .Nullable = .Skippable ∧
    ConditionalCompileType.Nullable.merge .Skippable = .Skippable ∧
    ConditionalCompileType.Nullable.merge .Nullable = .Nullable := by
  decide

/-- Claim C2: `merge(Required, Never)` and `merge(Never, Required)` both
yield `Fail` whose reason list is exactly the singleton synthesized reason
`"Never and Required incompatible"`. -/
theorem merge_required_never_fail :
    ConditionalCompileType.Required.merge .Never =
      .Fail ["Never and Required incompatible"] ∧
    ConditionalCompileType.Never.merge .Required =
      .Fail ["Never and Required incompatible"] :=
  ⟨rfl, rfl⟩

/-- Claim C3: merging two `Fail` values concatenates the reason lists in
argument order, and merging `Fail(v)` with any non-`Fail` value on either
side yields `Fail(v)` with the reason list unchanged. -/
theorem merge_fail_absorbs :
    (∀ v1 v2 : List String,
      (ConditionalCompileType.Fail v1).merge (.Fail v2) = .Fail (v1 ++ v2)) ∧
    (∀ (v : List String) (x : ConditionalCompileType), x.isFail = false →
      (ConditionalCompileType.Fail v).merge x = .Fail v ∧
        x.merge (.Fail v) = .Fail v) := by
  constructor
  · intro v1 v2
    rfl
  · intro v x hx
    cases x <;>
      first
        | exact ⟨rfl, rfl⟩
        | simp [ConditionalCompileType.isFail] at hx

/-- Witness for claim C3 at concrete inputs. -/
theorem merge_fail_absorbs_witness :
    (ConditionalCompileType.Fail ["a"]).merge (.Fail ["b"]) = .Fail ["a", "b"] ∧
    (ConditionalCompileType.Fail ["a"]).merge .Required = .Fail ["a"] ∧
    ConditionalCompileType.Required.merge (.Fail ["a"]) = .Fail ["a"] :=
  ⟨merge_fail_absorbs.1 ["a"] ["b"],
   (merge_fail_absorbs.2 ["a"] .Required (by decide)).1,
   (merge_fail_absorbs.2 ["a"] .Required (by decide)).2⟩

/-- Claim C4: `NoConstraint` is a two-sided identity for `merge`, for every
value including `Fail`. -/
theorem merge_noConstraint_identity :
    ∀ x : ConditionalCompileType,
      ConditionalCompileType.NoConstraint.merge x = x ∧
        x.merge .NoConstraint = x := by
  intro x
  cases x <;> exact ⟨rfl, rfl⟩

/-- Claim C5: `merge` is commutative on all pairs where neither operand is
`Fail`, and idempotent on `Never`, `Required`, `Skippable` and `Nullable`. -/
theorem merge_comm_nonfail_idem :
    (∀ a b : ConditionalCompileType, a.isFail = false → b.isFail = false →
      a.merge b = b.merge a) ∧
    ConditionalCompileType.Never.merge .Never = .Never ∧
    ConditionalCompileType.Required.merge .Required = .Required ∧
    ConditionalCompileType.Skippable.merge .Skippable = .Skippable ∧
    ConditionalCompileType.Nullable.merge .Nullable = .Nullable := by
  refine ⟨?_, rfl, rfl, rfl, rfl⟩
  intro a b ha hb
  cases a <;> cases b <;>
    first
      | rfl
      | simp [ConditionalCompileType.isFail] at ha hb

/-- Witness for claim C5 at concrete inputs. -/
theorem merge_comm_nonfail_idem_witness :
    ConditionalCompileType.Skippable.merge .Never =
      ConditionalCompileType.Never.merge .Skippable :=
  merge_comm_nonfail_idem.1 .Skippable .Never (by decide) (by decide)

/-- Claim C6 counterexample: associativity of `merge` fails when a `Fail`
operand meets the synthesized `Required`/`Never` conflict — grouped left the
synthesized reason is absorbed, grouped right it is appended. -/
theorem merge_assoc_counterexample :
    ((ConditionalCompileType.Fail ["a"]).merge .Required).merge .Never ≠
      (ConditionalCompileType.Fail ["a"]).merge
        (ConditionalCompileType.Required.merge .Never) := by
  decide

/-- Claim C6 (amended): the result of folding `merge` is independent of
association when no operand is `Fail` — for all `a`, `b`, `c` none of which
is `Fail`, `merge(merge(a, b), c) = merge(a, merge(b, c))`. -/
theorem merge_assoc_nonfail :
    ∀ a b c : ConditionalCompileType,
      a.isFail = false → b.isFail = false → c.isFail = false →
        (a.merge b).merge c = a.merge (b.merge c) := by
  intro a b c ha hb hc
  cases a <;> cases b <;> cases c <;>
    first
      | rfl
      | simp [ConditionalCompileType.isFail] at ha hb hc

/-- Witness for claim C6 (amended) at concrete inputs. -/
theorem merge_assoc_nonfail_witness :
    (ConditionalCompileType.Required.merge .Never).merge .Skippable =
      ConditionalCompileType.Required.merge
        (ConditionalCompileType.Never.merge .Skippable) :=
  merge_assoc_nonfail .Required .Never .Skippable (by decide) (by decide)
    (by decide)

/-- Claim C7: `call` applies `coerce_args` first; if coercion returns an
error `e`, `call` returns that error and the result does not depend on the
production function (it is the same for every replacement of `func`); if
coercion succeeds with `args`, `call` returns exactly the production
function applied to the contract instance, context and `args`. -/
theorem call_coerce_then_func :
    ∀ {C Ctx Cl Err It Sch SA SpA : Type}
      (fof : FinishOrFunc C Ctx Cl Err It Sch SA SpA) (cself : C) (ctx : Ctx)
      (o : SA),
      (∀ e, fof.coerce_args o = .error e →
        fof.call cself ctx o = .error e ∧
        ∀ g : C → Ctx → SpA → Except Err It,
          (FinishOrFunc.mk fof.coerce_args fof.guard
            fof.conditional_compile_if g fof.schema fof.name).call cself ctx o =
          .error e) ∧
      (∀ args, fof.coerce_args o = .ok args →
        fof.call cself ctx o = fof.func cself ctx args) := by
  intro C Ctx Cl Err It Sch SA SpA fof cself ctx o
  constructor
  · intro e he
    constructor
    · unfold FinishOrFunc.call
      rw [he]
    · intro g
      unfold FinishOrFunc.call
      rw [show (FinishOrFunc.mk fof.coerce_args fof.guard
          fof.conditional_compile_if g fof.schema fof.name).coerce_args o =
          Except.error e from he]
  · intro args hargs
    unfold FinishOrFunc.call
    rw [hargs]

/-- A concrete `FinishOrFunc` used to witness claim C7: coercion rejects the
argument `0` with error `7` and accepts any other `n` as itself; the
production function adds one to its argument. -/
def fofExample : FinishOrFunc Unit Unit Unit Nat Nat Unit Nat Nat :=
  FinishOrFunc.mk (fun n => if n = 0 then .error 7 else .ok n) [] []
    (fun _ _ a => .ok (a + 1)) none ("example")

/-- Witness for claim C7 at concrete inputs. -/
theorem call_coerce_then_func_witness :
    fofExample.call () () 0 = .error 7 ∧ fofExample.call () () 2 = .ok 3 :=
  ⟨((call_coerce_then_func fofExample () () 0).1 7 rfl).1,
   (call_coerce_then_func fofExample () () 2).2 2 rfl⟩

/-- Claim C8: starting from an empty session memo, evaluating a `Cache`
guard twice for the same contract instance invokes the underlying function
exactly once and returns an equal clause both times, while evaluating a
`Fresh` guard twice invokes the underlying function twice. -/
theorem cache_once_fresh_twice :
    ∀ {C Ctx Clause : Type} (f : C → Ctx → Clause) (self : C) (ctx : Ctx),
      ((evalGuard (Guard.Cache f) self ctx
          (evalGuard (Guard.Cache f) self ctx ⟨none, 0⟩).2).2.invocations = 1 ∧
        (evalGuard (Guard.Cache f) self ctx ⟨none, 0⟩).1 =
          (evalGuard (Guard.Cache f) self ctx
            (evalGuard (Guard.Cache f) self ctx ⟨none, 0⟩).2).1) ∧
      (evalGuard (Guard.Fresh f) self ctx
          (evalGuard (Guard.Fresh f) self ctx ⟨none, 0⟩).2).2.invocations = 2 := by
  intro C Ctx Clause f self ctx
  exact ⟨⟨rfl, rfl⟩, rfl⟩

/-- Claim C9: if folding a branch's conditional-compile-if list yields the
verdict `Never`, the branch resolves to `excluded`, and this outcome does
not depend on the production function (it is the same for every replacement
of `func`), so the production function is never invoked. -/
theorem never_excludes_branch :
    ∀ {C Ctx Cl Err It : Type} (b : ThenFunc C Ctx Cl Err It) (self : C)
      (ctx : Ctx),
      b.verdict self ctx = .Never →
      b.resolve self ctx = .excluded ∧
      ∀ g, (ThenFunc.mk b.guard b.conditional_compile_if g).resolve self ctx =
        (BranchOutcome.excluded : BranchOutcome Err It) := by
  intro C Ctx Cl Err It b self ctx h
  constructor
  · unfold ThenFunc.resolve
    rw [h]
  · intro g
    unfold ThenFunc.resolve
    rw [show (ThenFunc.mk b.guard b.conditional_compile_if g).verdict self ctx =
        ConditionalCompileType.Never from h]

/-- A concrete `ThenFunc` used to witness claim C9: its single
conditional-compile-if rule returns `Never`. -/
def neverBranch : ThenFunc Unit Unit Unit Nat Nat :=
  ThenFunc.mk []
    [fun _ => some (ConditionallyCompileIf.Fresh (fun _ _ => .Never))]
    (fun _ _ => .ok 0)

/-- Witness for claim C9 at concrete inputs. -/
theorem never_excludes_branch_witness :
    neverBranch.verdict () () = .Never ∧ neverBranch.resolve () () = .excluded :=
  ⟨rfl, (never_excludes_branch neverBranch () () rfl).1⟩

/-- Claim C10: except for the `Required`/`Never` conflict (either order) and
the `Fail`/`Fail` concatenation, `merge` returns one of its two arguments. -/
theorem merge_returns_argument :
    ∀ a b : ConditionalCompileType,
      ¬(a = .Required ∧ b = .Never) → ¬(a = .Never ∧ b = .Required) →
      ¬(a.isFail = true ∧ b.isFail = true) →
      a.merge b = a ∨ a.merge b = b := by
  intro a b h1 h2 h3
  cases a <;> cases b <;>
    first
      | exact Or.inl rfl
      | exact Or.inr rfl
      | exact (h1 ⟨rfl, rfl⟩).elim
      | exact (h2 ⟨rfl, rfl⟩).elim
      | exact (h3 ⟨rfl, rfl⟩).elim

/-- Witness for claim C10 at concrete inputs. -/
theorem merge_returns_argument_witness :
    ConditionalCompileType.Skippable.merge .Nullable = .Skippable ∨
      ConditionalCompileType.Skippable.merge .Nullable = .Nullable :=
  merge_returns_argument .Skippable .Nullable (by decide) (by decide)
    (by decide)

end Sapio
